import Mathlib

/-!
# StatisticalFaceAnalysis: the viewer's key handling, verified

A shallow embedding of `SFAViewer/src/SFA/main.cpp`: the globals of the
viewer that take part in registration become a `State`, `keyCallback`
becomes a function `State → KeyEventArgs → State`, and every call made on a
collaborator (model, nearest-neighbour search, ICP, PCA pre-alignment, log)
is appended to the state's `calls`, in program order.

The collaborators themselves (`Model`, `KdTreeNearestNeighbor`,
`RigidPointICP`, `PCA_ICP`, `dbgl::Properties`) live outside `main.cpp`.
What they compute is taken as a parameter, bundled in `Collab`; the few
members whose effect the properties below depend on are modelled from the
written specification and marked as such.
-/

namespace SFA

/-! ## GLFW constants (values of `GLFW/glfw3.h`) -/

/-- The key was released. -/
@[simp]
def GLFW_RELEASE : Int := 0
/-- The key was pressed. -/
@[simp]
def GLFW_PRESS : Int := 1
/-- The key was held down until it repeated. -/
@[simp]
def GLFW_REPEAT : Int := 2
/-- Modifier bit field with only the control bit set. -/
@[simp]
def GLFW_MOD_CONTROL : Int := 2

@[simp]
def GLFW_KEY_H : Int := 72
@[simp]
def GLFW_KEY_I : Int := 73
@[simp]
def GLFW_KEY_L : Int := 76
@[simp]
def GLFW_KEY_M : Int := 77
@[simp]
def GLFW_KEY_N : Int := 78
@[simp]
def GLFW_KEY_O : Int := 79
@[simp]
def GLFW_KEY_P : Int := 80
@[simp]
def GLFW_KEY_R : Int := 82
@[simp]
def GLFW_KEY_T : Int := 84
@[simp]
def GLFW_KEY_U : Int := 85
@[simp]
def GLFW_KEY_F1 : Int := 290
@[simp]
def GLFW_KEY_F2 : Int := 291
@[simp]
def GLFW_KEY_F3 : Int := 292
@[simp]
def GLFW_KEY_F4 : Int := 293
@[simp]
def GLFW_KEY_F5 : Int := 294
@[simp]
def GLFW_KEY_F6 : Int := 295
@[simp]
def GLFW_KEY_F7 : Int := 296

/-- The fields of `Window::KeyEventArgs` that `keyCallback` reads. -/
structure KeyEventArgs where
  key : Int
  action : Int
  mods : Int
deriving DecidableEq

/-! ## Data model -/

/-- The selection filters of `ICP` that `keyCallback` names. `ALL` is not
among them: the code writes it as the literal mask `0`. -/
inductive PointSelectionFlag where
  | EVERY_SECOND
  | EVERY_THIRD
  | EVERY_FOURTH
  | EVERY_FIFTH
  | NO_EDGES
  | RANDOM
deriving DecidableEq

/-- A point of a model: position, normal and edge flag. -/
structure Vertex (V : Type) where
  coords : V
  normal : V
  isEdge : Bool

/-- Modelled from the spec: `Model` (`SFA/Utility/Model.h` is not part of the
sources at hand), "ordered sequence of Point, mutable in place; exposes count
and indexed get/set". -/
abbrev Model (V : Type) := List (Vertex V)

/-- Modelled from the spec: `Model::getAmountOfVertices`, the point count. -/
def Model.getAmountOfVertices {V : Type} (m : Model V) : Nat := m.length

/-- Modelled from the spec: `Model::getVertex`, the indexed read. -/
def Model.getVertex {V : Type} (m : Model V) (i : Nat) : Option (Vertex V) := m[i]?

/-- Modelled from the spec: `Model::setVertex(i, coords, normal)`, the indexed
write of position and normal; the edge flag of the point is not an argument
and stays. -/
def Model.setVertex {V : Type} (m : Model V) (i : Nat) (coords normal : V) : Model V :=
  m.modify (fun v => { v with coords := coords, normal := normal }) i

/-- Modelled from the spec: the state of a `NearestNeighbor` instance
(`KdTreeNearestNeighbor`): the correspondence cache it owns, "mapping
source-index → (nearest destination index, distance)", next to whatever
search structure it keeps. -/
structure NearestNeighbor (T E : Type) where
  tree : T
  cache : List E

/-- Modelled from the spec: `NearestNeighbor::clearCache`, which empties the
correspondence cache. -/
def NearestNeighbor.clearCache {T E : Type} (nn : NearestNeighbor T E) : NearestNeighbor T E :=
  { nn with cache := [] }

/-- Modelled from the spec: the ICP object, holding the selection mask
(`setSelectionMask(mask)` / `selectionMask()`) as an unsigned bit field, next
to its other fields. -/
structure ICP (D : Type) where
  selectionMethod : Nat
  data : D

/-- Modelled from the spec: `ICP::setSelectionMethod`, the setter of the
selection mask. -/
def ICP.setSelectionMethod {D : Type} (icp : ICP D) (mask : Nat) : ICP D :=
  { icp with selectionMethod := mask }

/-- Modelled from the spec: `dbgl::Bitmask<>::toggle` (the DBGL headers are not
part of the sources at hand), the "bitmask toggling" of the viewer: it flips
the given flags of an unsigned bit field. The exclusive or of two 32-bit
values is a 32-bit value (`Bitmask.toggle_lt`), so no reduction modulo `2^32`
takes place. -/
def Bitmask.toggle (m flags : Nat) : Nat := m ^^^ flags

/-- Modelled from the spec: `dbgl::Bitmask<>::isSet` (the DBGL headers are not
part of the sources at hand), which tells whether all of the given flags are
set in the bit field. -/
def Bitmask.isSet (m flags : Nat) : Bool := (m &&& flags) == flags

/-- Which of the two global models a call is made on. -/
inductive Which where
  | source
  | dest
deriving DecidableEq

/-- A call made on a collaborator. -/
inductive Call (E : Type) where
  | logInfo (msg : String)
  | logInfoError (fmt : String) (error : E)
  | icpCalcNextStep
  | pcaCalcNextStep
  | updateBuffers (w : Which)
  | clearCache
  | rotateRandom
  | translateRandom
  | deleteModel (w : Which)
  | newModel (w : Which) (path : String)
  | pcaReset
  | computeError
  | setSelectionMethod (mask : Nat)
  | addNoise
  | addHole
  | setLogLevel
  | propertiesLoad (path : String)
  | propertiesInterpret
  | createWindow
  | windowInit
  | newCamera
  | createShader
  | addCallbacks
  | windowShow
  | deleteShader
  | deleteCamera
  | terminate

/-- What the collaborators of `main.cpp` compute. The types stand for the
data the source does not show (vectors and scalars are floating point there);
the functions stand for the members called by `main.cpp`. State that a member
may change is passed in and handed back. -/
structure Collab where
  Vec : Type
  Scalar : Type
  Tree : Type
  Entry : Type
  ICPData : Type
  PCA : Type
  Rng : Type
  Props : Type
  Err : Type
  /-- The literal `0.5f`. -/
  half : Scalar
  /-- Scalar times vector. -/
  smul : Scalar → Vec → Vec
  /-- Vector plus vector. -/
  add : Vec → Vec → Vec
  /-- Modelled from the spec: the selection flags of `ICP` (`SFA/ICP/ICP.h` is
  not part of the sources at hand) are "combinable" flags of one bit field;
  this is the bit each of them occupies. -/
  flagBit : PointSelectionFlag → Nat
  getStringValue : Props → String → String
  getFloatValue : Props → String → Scalar
  getBoolValue : Props → String → Bool
  load : Props → String → Props
  interpret : Props → List String → Props
  /-- The constructor `Model(path)`: the mesh read from the file. -/
  newModel : String → Model Vec
  /-- The member `RigidPointICP::calcNextStep(source, dest)`; the ICP object
  holds a reference to the nearest-neighbour instance. -/
  icpCalcNextStep : ICP ICPData → NearestNeighbor Tree Entry → Rng → Model Vec → Model Vec →
    ICPData × NearestNeighbor Tree Entry × Rng × Model Vec
  /-- The member `PCA_ICP::calcNextStep(source, dest)`. -/
  pcaCalcNextStep : PCA → Model Vec → Model Vec → PCA × Model Vec
  /-- The retained state of a freshly constructed `PCA_ICP`. -/
  pcaInit : PCA
  rotateRandom : Scalar → Rng → Model Vec → Rng × Model Vec
  translateRandom : Scalar → Rng → Model Vec → Rng × Model Vec
  addNoise : Rng → Model Vec → Rng × Model Vec
  addHole : Rng → Model Vec → Rng × Model Vec
  /-- The member `NearestNeighbor::computeError(a, b)`. -/
  computeError : NearestNeighbor Tree Entry → Model Vec → Model Vec →
    Err × NearestNeighbor Tree Entry
  /-- The state of the default-constructed `KdTreeNearestNeighbor nn`. -/
  nnInit : NearestNeighbor Tree Entry
  /-- The state of `RigidPointICP icp(nn, &logfile)` after construction. -/
  icpInit : ICP ICPData
  /-- The state of the pseudorandom generator at program start. -/
  rngInit : Rng

/-- Modelled from the spec: `PCA_ICP::reset`, which "clears any retained
intermediate state so a subsequent invocation starts from scratch". -/
def Collab.pcaReset (c : Collab) (_pca : c.PCA) : c.PCA := c.pcaInit

/-- The value of a selection flag: the one bit it occupies. -/
def Collab.flagValue (c : Collab) (f : PointSelectionFlag) : Nat := 1 <<< c.flagBit f

/-- The globals of `main.cpp` that take part in registration, and the calls
made so far. Window, camera, shader and the view matrices are left out: no
branch of `keyCallback` reads or writes them. -/
structure State (c : Collab) where
  pSourceModel : Model c.Vec
  pDestModel : Model c.Vec
  showSource : Bool
  showDest : Bool
  nn : NearestNeighbor c.Tree c.Entry
  icp : ICP c.ICPData
  pca_icp : c.PCA
  rng : c.Rng
  properties : c.Props
  calls : List (Call c.Err)

/-- Append calls to the record. -/
def State.did {c : Collab} (s : State c) (cs : List (Call c.Err)) : State c :=
  { s with calls := s.calls ++ cs }

/-! ## `keyCallback` -/

/-- Lines 85-141 of `main.cpp`: the first `if`/`else if` chain of
`keyCallback`, which runs a registration step, toggles visibility, perturbs
or reloads the models, or logs the matching error. -/
def keyAction (c : Collab) (s : State c) (args : KeyEventArgs) : State c :=
  -- Check if next ICP step should be executed
  if args.key = GLFW_KEY_I ∧ args.action = GLFW_PRESS then
    let r := c.icpCalcNextStep s.icp s.nn s.rng s.pSourceModel s.pDestModel
    { s with
      pSourceModel := r.2.2.2
      nn := r.2.1
      rng := r.2.2.1
      icp := { s.icp with data := r.1 }
      calls := s.calls ++ [.logInfo "Calculating next ICP step!", .icpCalcNextStep,
        .updateBuffers .source, .logInfo "Done!"] }
  -- Check if "PCA ICP" should be executed
  else if args.key = GLFW_KEY_U ∧ args.action = GLFW_PRESS then
    let r := c.pcaCalcNextStep s.pca_icp s.pSourceModel s.pDestModel
    { s with
      pSourceModel := r.2
      pca_icp := r.1
      nn := s.nn.clearCache
      calls := s.calls ++ [.logInfo "Calculating PCA matching!", .pcaCalcNextStep,
        .updateBuffers .source, .clearCache, .logInfo "Done!"] }
  -- Toggle source and destination mesh visibility
  else if args.key = GLFW_KEY_O ∧ args.action = GLFW_PRESS then
    { s with showSource := !s.showSource }
  else if args.key = GLFW_KEY_P ∧ args.action = GLFW_PRESS then
    { s with showDest := !s.showDest }
  -- Randomly rotate or translate
  else if args.key = GLFW_KEY_R ∧ args.action = GLFW_PRESS ∧ args.mods = GLFW_MOD_CONTROL then
    let r := c.rotateRandom (c.getFloatValue s.properties "maxRandomRotation") s.rng s.pSourceModel
    { s with
      pSourceModel := r.2
      rng := r.1
      calls := s.calls ++ [.logInfo "Applying random rotation to source mesh.", .rotateRandom] }
  else if args.key = GLFW_KEY_T ∧ args.action = GLFW_PRESS ∧ args.mods = GLFW_MOD_CONTROL then
    let r := c.translateRandom (c.getFloatValue s.properties "maxRandomTranslation") s.rng
      s.pSourceModel
    { s with
      pSourceModel := r.2
      rng := r.1
      calls := s.calls ++ [.logInfo "Applying random translation to source mesh.",
        .translateRandom] }
  -- Reload meshes
  else if args.key = GLFW_KEY_R ∧ args.action = GLFW_PRESS then
    { s with
      pSourceModel := c.newModel (c.getStringValue s.properties "src")
      pDestModel := c.newModel (c.getStringValue s.properties "dest")
      pca_icp := c.pcaReset s.pca_icp
      calls := s.calls ++ [.logInfo "Reloading meshes...", .deleteModel .source,
        .deleteModel .dest, .newModel .source (c.getStringValue s.properties "src"),
        .newModel .dest (c.getStringValue s.properties "dest"), .updateBuffers .source,
        .updateBuffers .dest, .pcaReset] }
  -- Log matching error
  else if args.key = GLFW_KEY_L ∧ args.action = GLFW_PRESS then
    let r := c.computeError s.nn s.pSourceModel s.pDestModel
    { s with
      nn := r.2
      calls := s.calls ++ [.computeError, .logInfoError "Matching error: %.20f" r.1] }
  else s

/-- The log line of a filter key: the filter was added when the flag is set
after the toggle, removed otherwise. -/
def filterLog (E : Type) (selectionMethod flag : Nat) (added removed : String) : Call E :=
  if Bitmask.isSet selectionMethod flag then .logInfo added else .logInfo removed

/-- Lines 144-206 of `main.cpp`: the second `if`/`else if` chain of
`keyCallback`, run on the local copy `selectionMethod` of the selection mask.
It returns the state and the local copy. -/
def keySelection (c : Collab) (s : State c) (args : KeyEventArgs) (selectionMethod : Nat) :
    State c × Nat :=
  if args.key = GLFW_KEY_F1 ∧ args.action = GLFW_PRESS then
    (s.did [.logInfo "Using all points."], 0)
  else if args.key = GLFW_KEY_F2 ∧ args.action = GLFW_PRESS then
    let m := Bitmask.toggle selectionMethod (c.flagValue .EVERY_SECOND)
    (s.did [filterLog c.Err m (c.flagValue .EVERY_SECOND)
      "Adding filter \x22Every second\x22." "Removing filter \x22Every second\x22."], m)
  else if args.key = GLFW_KEY_F3 ∧ args.action = GLFW_PRESS then
    let m := Bitmask.toggle selectionMethod (c.flagValue .EVERY_THIRD)
    (s.did [filterLog c.Err m (c.flagValue .EVERY_THIRD)
      "Adding filter \x22Every third\x22." "Removing filter \x22Every third\x22."], m)
  else if args.key = GLFW_KEY_F4 ∧ args.action = GLFW_PRESS then
    let m := Bitmask.toggle selectionMethod (c.flagValue .EVERY_FOURTH)
    (s.did [filterLog c.Err m (c.flagValue .EVERY_FOURTH)
      "Adding filter \x22Every fourth\x22." "Removing filter \x22Every fourth\x22."], m)
  else if args.key = GLFW_KEY_F5 ∧ args.action = GLFW_PRESS then
    let m := Bitmask.toggle selectionMethod (c.flagValue .EVERY_FIFTH)
    (s.did [filterLog c.Err m (c.flagValue .EVERY_FIFTH)
      "Adding filter \x22Every fifth\x22." "Removing filter \x22Every fifth\x22."], m)
  else if args.key = GLFW_KEY_F6 ∧ args.action = GLFW_PRESS then
    let m := Bitmask.toggle selectionMethod (c.flagValue .NO_EDGES)
    (s.did [filterLog c.Err m (c.flagValue .NO_EDGES)
      "Adding filter \x22No edges\x22." "Removing filter \x22No edges\x22."], m)
  else if args.key = GLFW_KEY_F7 ∧ args.action = GLFW_PRESS then
    let m := Bitmask.toggle selectionMethod (c.flagValue .RANDOM)
    (s.did [filterLog c.Err m (c.flagValue .RANDOM)
      "Adding filter \x22Random\x22." "Removing filter \x22Random\x22."], m)
  else if args.key = GLFW_KEY_N ∧ args.action = GLFW_PRESS then
    let r := c.addNoise s.rng s.pSourceModel
    ({ s with
       pSourceModel := r.2
       rng := r.1
       calls := s.calls ++ [.logInfo "Adding random noise to source model.", .addNoise] },
     selectionMethod)
  else if args.key = GLFW_KEY_M ∧ args.action = GLFW_PRESS then
    let r := c.addHole s.rng s.pSourceModel
    ({ s with
       pSourceModel := r.2
       rng := r.1
       calls := s.calls ++ [.logInfo "Adding a random hole to source model.", .addHole] },
     selectionMethod)
  else (s, selectionMethod)

/-- Lines 212-220 of `main.cpp`: the loop of the debug key over the vertices
of the destination, from index `i` on. Every edge vertex is moved by half its
normal. The loop runs at most `fuel` rounds; `moveEdgeVertices_eq_map` shows
that the vertex count is fuel enough. -/
def moveEdgeVerticesFrom (c : Collab) : Nat → Nat → Model c.Vec → Model c.Vec
  | 0, _, m => m
  | fuel + 1, i, m =>
    if i < m.getAmountOfVertices then
      match m.getVertex i with
      | some vertex =>
        if vertex.isEdge then
          let coords := c.add vertex.coords (c.smul c.half vertex.normal)
          moveEdgeVerticesFrom c fuel (i + 1) (m.setVertex i coords vertex.normal)
        else moveEdgeVerticesFrom c fuel (i + 1) m
      | none => moveEdgeVerticesFrom c fuel (i + 1) m
    else m

/-- The whole loop of the debug key, from index 0. -/
def moveEdgeVertices (c : Collab) (m : Model c.Vec) : Model c.Vec :=
  moveEdgeVerticesFrom c m.getAmountOfVertices 0 m

/-- Lines 209-222 of `main.cpp`: the debug key. -/
def keyDebug (c : Collab) (s : State c) (args : KeyEventArgs) : State c :=
  if args.key = GLFW_KEY_H ∧ args.action = GLFW_PRESS then
    { s with
      pDestModel := moveEdgeVertices c s.pDestModel
      calls := s.calls ++ [.logInfo "DEBUG!", .updateBuffers .dest] }
  else s

/-- The function `keyCallback` of `main.cpp` (lines 83-223): the action
chain, then the selection chain on a copy of the selection mask of `icp`, the
write-back of that copy with `icp.setSelectionMethod`, and the debug key. -/
def keyCallback (c : Collab) (s : State c) (args : KeyEventArgs) : State c :=
  let s1 := keyAction c s args
  let selectionMethod := s1.icp.selectionMethod
  let r := keySelection c s1 args selectionMethod
  let s2 := r.1
  let s3 : State c :=
    { s2 with
      icp := s2.icp.setSelectionMethod r.2
      calls := s2.calls ++ [.setSelectionMethod r.2] }
  keyDebug c s3 args

/-! ## `checkProperties` and `main` -/

/-- The function `checkProperties` of `main.cpp` (lines 282-285). -/
def checkProperties (c : Collab) (properties : c.Props) : Bool :=
  c.getStringValue properties "src" != "" && c.getStringValue properties "dest" != ""

/-- The globals of `main.cpp` once `main` has loaded the models (lines
314-322): both models read from the files the properties name, the source
translated and rotated at random when the properties ask for it, and every
other global as initialised at its declaration. -/
def startState (c : Collab) (properties : c.Props) (calls : List (Call c.Err)) : State c :=
  let source := c.newModel (c.getStringValue properties "src")
  let dest := c.newModel (c.getStringValue properties "dest")
  let calls1 := calls ++ [.newModel .source (c.getStringValue properties "src"),
    .newModel .dest (c.getStringValue properties "dest"), .updateBuffers .source,
    .updateBuffers .dest]
  let t : (c.Rng × Model c.Vec) × List (Call c.Err) :=
    if c.getBoolValue properties "activateStartRandomTranslation" then
      (c.translateRandom (c.getFloatValue properties "maxRandomTranslation") c.rngInit source,
        calls1 ++ [.translateRandom])
    else ((c.rngInit, source), calls1)
  let r : (c.Rng × Model c.Vec) × List (Call c.Err) :=
    if c.getBoolValue properties "activateStartRandomRotation" then
      (c.rotateRandom (c.getFloatValue properties "maxRandomRotation") t.1.1 t.1.2,
        t.2 ++ [.rotateRandom])
    else t
  { pSourceModel := r.1.2
    pDestModel := dest
    showSource := true
    showDest := true
    nn := c.nnInit
    icp := c.icpInit
    pca_icp := c.pcaInit
    rng := r.1.1
    properties := properties
    calls := r.2 }

/-- The function `main` of `main.cpp` (lines 287-349). `properties0` is the
global `properties` as constructed, `argv` the argument vector and `keys` the
key events the window delivers until it is closed (the update loop of lines
334-337 hands each of them to `keyCallback`). The result is the exit code and
the calls made. -/
def main (c : Collab) (properties0 : c.Props) (argv : List String) (keys : List KeyEventArgs) :
    Int × List (Call c.Err) :=
  let calls0 : List (Call c.Err) := [.setLogLevel, .logInfo "Starting...",
    .propertiesLoad "Properties.txt", .propertiesInterpret]
  -- Skip first argument as it's the executable's path
  let properties := c.interpret (c.load properties0 "Properties.txt") argv.tail
  if !checkProperties c properties then
    (-1, calls0 ++ [.logInfo "Usage: -src Path/To/Source/Mesh",
      .logInfo "       -dest Path/To/Destination/Mesh"])
  else
    let s0 := startState c properties (calls0 ++ [.createWindow, .windowInit, .newCamera])
    let s1 := s0.did [.createShader, .addCallbacks, .windowShow]
    let s := keys.foldl (keyCallback c) s1
    (0, s.calls ++ [.deleteModel .source, .deleteModel .dest, .deleteShader, .deleteCamera,
      .terminate, .logInfo "That's it!"])

/-! ## The selection step -/

/-- The selection mask with exactly the given flags set. -/
def Collab.maskOf (c : Collab) (flags : List PointSelectionFlag) : Nat :=
  flags.foldr (fun f m => c.flagValue f ||| m) 0

/-- Modelled from the spec: whether index `i` passes the filters of the
selection mask (§4.2): "EVERY_SECOND/THIRD/FOURTH/FIFTH → indices divisible by
2/3/4/5 respectively; when multiple modulus filters are set simultaneously,
semantics are intersection", "NO_EDGES removes indices whose edge flag is
set", and RANDOM keeps the indices of this call's pseudorandom draw, `draw`,
combined "with the other filters via intersection". Every point of a `Model`
carries an edge flag here, so the case of a model without edge annotations
does not arise. -/
def passesFilters (c : Collab) (draw : Nat → Bool) (source : Model c.Vec) (mask : Nat)
    (i : Nat) : Bool :=
  (!Bitmask.isSet mask (c.flagValue .EVERY_SECOND) || i % 2 == 0) &&
  (!Bitmask.isSet mask (c.flagValue .EVERY_THIRD) || i % 3 == 0) &&
  (!Bitmask.isSet mask (c.flagValue .EVERY_FOURTH) || i % 4 == 0) &&
  (!Bitmask.isSet mask (c.flagValue .EVERY_FIFTH) || i % 5 == 0) &&
  (!Bitmask.isSet mask (c.flagValue .NO_EDGES) ||
    !(match source.getVertex i with
      | some v => v.isEdge
      | none => false)) &&
  (!Bitmask.isSet mask (c.flagValue .RANDOM) || draw i)

/-- Modelled from the spec: the selection step of ICP (§4.2; the code of
`IterativeClosestPoint` is not part of the sources at hand): "Given the index
range [0, sourceCount) and a SelectionMask, produce the active index subset
for one step. ALL → every index." -/
def selectPoints (c : Collab) (draw : Nat → Bool) (source : Model c.Vec) (mask : Nat) :
    List Nat :=
  (List.range source.getAmountOfVertices).filter (passesFilters c draw source mask)

/-! ## A concrete set of collaborators -/

/-- A small instance of the collaborators over the rationals: flag `k` of the
enumeration occupies bit `k`, a property is looked up in a list of pairs, a
file name is read as a two-point model, and every step of the registration
engine records one cache entry. -/
@[reducible]
def demo : Collab where
  Vec := ℚ
  Scalar := ℚ
  Tree := Unit
  Entry := Nat
  ICPData := Nat
  PCA := Nat
  Rng := Nat
  Props := List (String × String)
  Err := Nat
  half := 1 / 2
  smul := fun a v => a * v
  add := fun v w => v + w
  flagBit := fun f =>
    match f with
    | .EVERY_SECOND => 0
    | .EVERY_THIRD => 1
    | .EVERY_FOURTH => 2
    | .EVERY_FIFTH => 3
    | .NO_EDGES => 4
    | .RANDOM => 5
  getStringValue := fun ps k =>
    match ps.lookup k with
    | some v => v
    | none => ""
  getFloatValue := fun _ _ => 1
  getBoolValue := fun _ _ => false
  load := fun ps _ => ps
  interpret := fun ps args =>
    match args with
    | ["-src", a, "-dest", b] => ("src", a) :: ("dest", b) :: ps
    | _ => ps
  newModel := fun path =>
    [{ coords := path.length, normal := 1, isEdge := true },
     { coords := 0, normal := 1, isEdge := false }]
  icpCalcNextStep := fun icp nn rng source _ =>
    (icp.data + 1, { nn with cache := 0 :: nn.cache }, rng, source)
  pcaCalcNextStep := fun pca source _ => (pca + 1, source)
  pcaInit := 0
  rotateRandom := fun _ rng m => (rng + 1, m)
  translateRandom := fun _ rng m => (rng + 1, m)
  addNoise := fun rng m => (rng + 1, m)
  addHole := fun rng m => (rng + 1, m.tail)
  computeError := fun nn _ _ => (0, { nn with cache := 1 :: nn.cache })
  nnInit := { tree := (), cache := [] }
  icpInit := { selectionMethod := 0, data := 0 }
  rngInit := 0

/-- A state of the demo viewer: models loaded, one ICP step taken (so the
correspondence cache holds an entry), one PCA step retained. -/
def demoState : State demo where
  pSourceModel := demo.newModel "a.obj"
  pDestModel := demo.newModel "bb.obj"
  showSource := true
  showDest := true
  nn := { tree := (), cache := [0] }
  icp := { selectionMethod := 5, data := 1 }
  pca_icp := 1
  rng := 0
  properties := [("src", "a.obj"), ("dest", "bb.obj")]
  calls := []

/-- The key that `keyCallback` binds to a selection filter (lines 149-196 of
`main.cpp`): F2 to F7, in the order of the enumeration. -/
def filterKey : PointSelectionFlag → Int
  | .EVERY_SECOND => GLFW_KEY_F2
  | .EVERY_THIRD => GLFW_KEY_F3
  | .EVERY_FOURTH => GLFW_KEY_F4
  | .EVERY_FIFTH => GLFW_KEY_F5
  | .NO_EDGES => GLFW_KEY_F6
  | .RANDOM => GLFW_KEY_F7

/-- The state of the demo viewer after the debug key: the edge vertex of the
destination has left the place the file gives it. -/
def demoMoved : State demo :=
  { demoState with
    pDestModel := [{ coords := 13 / 2, normal := 1, isEdge := true },
      { coords := 0, normal := 1, isEdge := false }] }

/-- What the debug key does to one vertex: an edge vertex is moved by half
its normal, any other vertex stays. -/
def moveVertex (c : Collab) (v : Vertex c.Vec) : Vertex c.Vec :=
  if v.isEdge then { v with coords := c.add v.coords (c.smul c.half v.normal) } else v

/-- The calls made between two states of one run. -/
def callsSince {c : Collab} (before after : State c) : List (Call c.Err) :=
  after.calls.drop before.calls.length

/-- A model of 100 points, the edge flag set on every fourth of them. -/
def demoSource : Model demo.Vec :=
  (List.range 100).map
    (fun (i : Nat) => { coords := (i : ℚ), normal := 1, isEdge := i % 4 == 1 })

/-! ## Bit fields -/

/-- A one-bit flag is set in a bit field exactly when its bit is. -/
theorem Bitmask.isSet_one_shiftLeft (m k : Nat) : Bitmask.isSet m (1 <<< k) = m.testBit k := by
  unfold Bitmask.isSet
  rw [Nat.one_shiftLeft]
  cases h : m.testBit k
  · rw [beq_eq_false_iff_ne]
    intro he
    have hk := congrArg (fun x => x.testBit k) he
    simp [Nat.testBit_two_pow, h] at hk
  · rw [beq_iff_eq]
    apply Nat.eq_of_testBit_eq
    intro i
    rw [Nat.testBit_and, Nat.testBit_two_pow]
    by_cases hk : k = i
    · subst hk; simp [h]
    · simp [hk]

/-- Toggling a one-bit flag flips its bit and no other. -/
theorem Bitmask.testBit_toggle_one_shiftLeft (m k i : Nat) :
    (Bitmask.toggle m (1 <<< k)).testBit i = (m.testBit i ^^ decide (k = i)) := by
  unfold Bitmask.toggle
  rw [Nat.one_shiftLeft, Nat.testBit_xor, Nat.testBit_two_pow]

/-- Toggling the same flags twice gives the bit field back. -/
theorem Bitmask.toggle_toggle (m flags : Nat) :
    Bitmask.toggle (Bitmask.toggle m flags) flags = m := by
  unfold Bitmask.toggle
  rw [Nat.xor_assoc, Nat.xor_self, Nat.xor_zero]

/-- Toggling flags of a 32-bit field gives a 32-bit field: the model of
`Bitmask<>` over the naturals never leaves the range of `unsigned int`. -/
theorem Bitmask.toggle_lt (m flags : Nat) (hm : m < 2 ^ 32) (hf : flags < 2 ^ 32) :
    Bitmask.toggle m flags < 2 ^ 32 :=
  Nat.xor_lt_two_pow hm hf

/-- No flag is set in the empty mask. -/
theorem Bitmask.isSet_zero_flagValue (c : Collab) (f : PointSelectionFlag) :
    Bitmask.isSet 0 (c.flagValue f) = false := by
  unfold Collab.flagValue
  rw [Bitmask.isSet_one_shiftLeft, Nat.zero_testBit]

/-! ## What `keyCallback` does to the selection mask -/

/-- A press of a filter key stores the mask with that filter toggled. -/
theorem keyCallback_filterKey_mask (c : Collab) (s : State c) (f : PointSelectionFlag)
    (mods : Int) :
    (keyCallback c s ⟨filterKey f, GLFW_PRESS, mods⟩).icp.selectionMethod =
      Bitmask.toggle s.icp.selectionMethod (c.flagValue f) := by
  cases f <;>
    simp [keyCallback, keyAction, keySelection, keyDebug, filterKey, ICP.setSelectionMethod,
      State.did]

/-- The demo flags occupy six different bits. -/
theorem demo_flagBit_injective : Function.Injective demo.flagBit := by
  intro a b h
  cases a <;> cases b <;> first | rfl | (exact absurd h (by decide))

/-! ## The selection filters (F1 to F7) -/

/-- C2: a press of a filter key (F2 to F7) flips, in the mask stored in the
ICP object, the flag bound to that key and leaves every other flag, and
every other bit of the mask, as it was. The flags are taken to occupy
different bits. -/
theorem filter_key_toggles_exactly_its_flag (c : Collab)
    (hinj : Function.Injective c.flagBit) (s : State c) (f : PointSelectionFlag) (mods : Int) :
    Bitmask.isSet (keyCallback c s ⟨filterKey f, GLFW_PRESS, mods⟩).icp.selectionMethod
        (c.flagValue f) = !Bitmask.isSet s.icp.selectionMethod (c.flagValue f) ∧
    (∀ g : PointSelectionFlag, g ≠ f →
      Bitmask.isSet (keyCallback c s ⟨filterKey f, GLFW_PRESS, mods⟩).icp.selectionMethod
        (c.flagValue g) = Bitmask.isSet s.icp.selectionMethod (c.flagValue g)) ∧
    (∀ i : Nat, i ≠ c.flagBit f →
      (keyCallback c s ⟨filterKey f, GLFW_PRESS, mods⟩).icp.selectionMethod.testBit i =
        s.icp.selectionMethod.testBit i) := by
  rw [keyCallback_filterKey_mask]
  refine ⟨?_, ?_, ?_⟩
  · simp [Collab.flagValue, Bitmask.isSet_one_shiftLeft, Bitmask.testBit_toggle_one_shiftLeft]
  · intro g hg
    have hne : c.flagBit f ≠ c.flagBit g := fun h => hg (hinj h).symm
    simp [Collab.flagValue, Bitmask.isSet_one_shiftLeft, Bitmask.testBit_toggle_one_shiftLeft,
      hne]
  · intro i hi
    simp [Collab.flagValue, Bitmask.testBit_toggle_one_shiftLeft, Ne.symm hi]

/-- Witness of C2: F3 pressed in the demo state, whose mask is 5. -/
theorem filter_key_toggles_exactly_its_flag_witness :
    Function.Injective demo.flagBit ∧
    (Bitmask.isSet (keyCallback demo demoState
        ⟨filterKey .EVERY_THIRD, GLFW_PRESS, 0⟩).icp.selectionMethod
        (demo.flagValue .EVERY_THIRD) =
      !Bitmask.isSet demoState.icp.selectionMethod (demo.flagValue .EVERY_THIRD) ∧
    (∀ g : PointSelectionFlag, g ≠ .EVERY_THIRD →
      Bitmask.isSet (keyCallback demo demoState
        ⟨filterKey .EVERY_THIRD, GLFW_PRESS, 0⟩).icp.selectionMethod
        (demo.flagValue g) = Bitmask.isSet demoState.icp.selectionMethod (demo.flagValue g)) ∧
    (∀ i : Nat, i ≠ demo.flagBit .EVERY_THIRD →
      (keyCallback demo demoState
        ⟨filterKey .EVERY_THIRD, GLFW_PRESS, 0⟩).icp.selectionMethod.testBit i =
        demoState.icp.selectionMethod.testBit i)) :=
  ⟨demo_flagBit_injective,
    filter_key_toggles_exactly_its_flag demo demo_flagBit_injective demoState .EVERY_THIRD 0⟩

/-- C7: two presses of the same filter key, one after the other, leave the
selection mask of the ICP object as it was before the first. -/
theorem filter_key_twice_restores_mask (c : Collab) (s : State c) (f : PointSelectionFlag)
    (mods1 mods2 : Int) :
    (keyCallback c (keyCallback c s ⟨filterKey f, GLFW_PRESS, mods1⟩)
      ⟨filterKey f, GLFW_PRESS, mods2⟩).icp.selectionMethod = s.icp.selectionMethod := by
  rw [keyCallback_filterKey_mask, keyCallback_filterKey_mask, Bitmask.toggle_toggle]

/-- What `keyCallback` does on a press of F1. -/
theorem keyCallback_F1 (c : Collab) (s : State c) (mods : Int) :
    keyCallback c s ⟨GLFW_KEY_F1, GLFW_PRESS, mods⟩ =
      { s with
        icp := { s.icp with selectionMethod := 0 }
        calls := s.calls ++ [.logInfo "Using all points.", .setSelectionMethod 0] } := by
  simp [keyCallback, keyAction, keySelection, keyDebug, ICP.setSelectionMethod, State.did]

/-- With the empty mask the selection step keeps every index. -/
theorem selectPoints_zero (c : Collab) (draw : Nat → Bool) (source : Model c.Vec) :
    selectPoints c draw source 0 = List.range source.getAmountOfVertices := by
  unfold selectPoints
  rw [List.filter_eq_self]
  intro i _
  simp [passesFilters, Bitmask.isSet_zero_flagValue]

/-- C3: after a press of F1 the selection mask of the ICP object is 0, so
none of the six filters is set in it, and the selection step (as the
specification describes it) then keeps every index of the source. -/
theorem all_key_clears_every_filter (c : Collab) (s : State c) (mods : Int) :
    (keyCallback c s ⟨GLFW_KEY_F1, GLFW_PRESS, mods⟩).icp.selectionMethod = 0 ∧
    (∀ f : PointSelectionFlag,
      Bitmask.isSet (keyCallback c s ⟨GLFW_KEY_F1, GLFW_PRESS, mods⟩).icp.selectionMethod
        (c.flagValue f) = false) ∧
    (∀ draw : Nat → Bool,
      selectPoints c draw (keyCallback c s ⟨GLFW_KEY_F1, GLFW_PRESS, mods⟩).pSourceModel
        (keyCallback c s ⟨GLFW_KEY_F1, GLFW_PRESS, mods⟩).icp.selectionMethod =
      List.range
        (keyCallback c s ⟨GLFW_KEY_F1, GLFW_PRESS, mods⟩).pSourceModel.getAmountOfVertices) := by
  rw [keyCallback_F1]
  exact ⟨rfl, fun f => Bitmask.isSet_zero_flagValue c f, fun draw => selectPoints_zero c draw _⟩

/-! ## The selection step -/

/-- The bits of a mask built from a list of flags. -/
theorem testBit_maskOf (c : Collab) (flags : List PointSelectionFlag) (k : Nat) :
    (c.maskOf flags).testBit k = flags.any (fun g => decide (c.flagBit g = k)) := by
  induction flags with
  | nil => simp [Collab.maskOf]
  | cons g gs ih =>
    have hstep : c.maskOf (g :: gs) = c.flagValue g ||| c.maskOf gs := rfl
    rw [hstep, Nat.testBit_or, ih, List.any_cons, Collab.flagValue, Nat.one_shiftLeft,
      Nat.testBit_two_pow]

/-- A flag is set in a mask built from a list of flags exactly when it is in
the list, provided the flags occupy different bits. -/
theorem isSet_maskOf (c : Collab) (hinj : Function.Injective c.flagBit)
    (flags : List PointSelectionFlag) (f : PointSelectionFlag) :
    Bitmask.isSet (c.maskOf flags) (c.flagValue f) = decide (f ∈ flags) := by
  rw [Collab.flagValue, Bitmask.isSet_one_shiftLeft, testBit_maskOf, Bool.eq_iff_iff]
  simp only [List.any_eq_true, decide_eq_true_eq]
  constructor
  · rintro ⟨g, hg, hb⟩
    rw [← hinj hb]
    exact hg
  · intro hf
    exact ⟨f, hf, rfl⟩

/-- The selection step, index by index: an index is selected exactly when it
is below the point count and passes every filter set in the mask. -/
theorem mem_selectPoints (c : Collab) (draw : Nat → Bool) (source : Model c.Vec)
    (mask i : Nat) :
    i ∈ selectPoints c draw source mask ↔
      i < source.getAmountOfVertices ∧
      (Bitmask.isSet mask (c.flagValue .EVERY_SECOND) = true → 2 ∣ i) ∧
      (Bitmask.isSet mask (c.flagValue .EVERY_THIRD) = true → 3 ∣ i) ∧
      (Bitmask.isSet mask (c.flagValue .EVERY_FOURTH) = true → 4 ∣ i) ∧
      (Bitmask.isSet mask (c.flagValue .EVERY_FIFTH) = true → 5 ∣ i) ∧
      (Bitmask.isSet mask (c.flagValue .NO_EDGES) = true →
        ∀ v : Vertex c.Vec, source.getVertex i = some v → v.isEdge = false) ∧
      (Bitmask.isSet mask (c.flagValue .RANDOM) = true → draw i = true) := by
  simp only [selectPoints, List.mem_filter, List.mem_range, passesFilters,
    Nat.dvd_iff_mod_eq_zero]
  cases Bitmask.isSet mask (c.flagValue .EVERY_SECOND) <;>
    cases Bitmask.isSet mask (c.flagValue .EVERY_THIRD) <;>
    cases Bitmask.isSet mask (c.flagValue .EVERY_FOURTH) <;>
    cases Bitmask.isSet mask (c.flagValue .EVERY_FIFTH) <;>
    cases Bitmask.isSet mask (c.flagValue .NO_EDGES) <;>
    cases Bitmask.isSet mask (c.flagValue .RANDOM) <;>
    cases source.getVertex i <;>
    simp [and_assoc]

/-- Point 1 of the demo source of 100 points is an edge point. -/
theorem demoSource_getVertex_one :
    demoSource.getVertex 1 = some { coords := ((1 : Nat) : ℚ), normal := 1, isEdge := true } := by
  simp [demoSource, Model.getVertex, List.getElem?_map, List.getElem?_range]

/-- Counterexample to C6 as stated, on the selection step the specification
describes: with the mask of NO_EDGES alone no modulus filter is active, so index 1 of
the demo source of 100 points is below the point count and divisible by the
modulus of every active modulus filter, yet it is not selected, because its
edge flag is set. -/
theorem modulus_filters_alone_do_not_decide :
    ¬ (1 ∈ selectPoints demo (fun _ => true) demoSource (demo.maskOf [.NO_EDGES]) ↔
      1 < demoSource.getAmountOfVertices ∧
      (Bitmask.isSet (demo.maskOf [.NO_EDGES]) (demo.flagValue .EVERY_SECOND) = true → 2 ∣ 1) ∧
      (Bitmask.isSet (demo.maskOf [.NO_EDGES]) (demo.flagValue .EVERY_THIRD) = true → 3 ∣ 1) ∧
      (Bitmask.isSet (demo.maskOf [.NO_EDGES]) (demo.flagValue .EVERY_FOURTH) = true → 4 ∣ 1) ∧
      (Bitmask.isSet (demo.maskOf [.NO_EDGES]) (demo.flagValue .EVERY_FIFTH) = true →
        5 ∣ 1)) := by
  have hlen : demoSource.getAmountOfVertices = 100 := by
    unfold demoSource Model.getAmountOfVertices
    rw [List.length_map, List.length_range]
  intro hiff
  have hsel : 1 ∈ selectPoints demo (fun _ => true) demoSource (demo.maskOf [.NO_EDGES]) := by
    refine hiff.2 ⟨by rw [hlen]; decide, ?_, ?_, ?_, ?_⟩ <;>
      · rw [isSet_maskOf demo demo_flagBit_injective]
        intro h
        exact absurd h (by decide)
  have hedge := ((mem_selectPoints demo (fun _ => true) demoSource (demo.maskOf [.NO_EDGES])
    1).1 hsel).2.2.2.2.2.1
    (by rw [isSet_maskOf demo demo_flagBit_injective]; decide) _ demoSource_getVertex_one
  exact absurd hedge (by decide)

/-- C6, amended: the selection step, as the specification describes it, on a
source of 100 points: with the mask of EVERY_SECOND alone it yields exactly
the 50 even indices below 100, with the mask of EVERY_SECOND and EVERY_THIRD
exactly the multiples of 6 below 100. For every source and every mask, an
index is selected if and only if it is below the point count, is divisible
by the modulus of every modulus filter set in the mask, has no edge flag when
NO_EDGES is set, and is in the draw of the call when RANDOM is set. So, for
every mask, a selected index is divisible by the modulus of every modulus
filter set; and for every mask in which neither NO_EDGES nor RANDOM is set,
an index is selected if and only if it is below the point count and
divisible by the modulus of every modulus filter set. The flags are taken to
occupy different bits. -/
theorem modulus_filters_intersect (c : Collab) (hinj : Function.Injective c.flagBit)
    (draw : Nat → Bool) (source : Model c.Vec) :
    (source.getAmountOfVertices = 100 →
      selectPoints c draw source (c.maskOf [.EVERY_SECOND]) =
        [0, 2, 4, 6, 8, 10, 12, 14, 16, 18, 20, 22, 24, 26, 28, 30, 32, 34, 36, 38, 40, 42, 44,
          46, 48, 50, 52, 54, 56, 58, 60, 62, 64, 66, 68, 70, 72, 74, 76, 78, 80, 82, 84, 86, 88,
          90, 92, 94, 96, 98] ∧
      (selectPoints c draw source (c.maskOf [.EVERY_SECOND])).length = 50) ∧
    (source.getAmountOfVertices = 100 →
      selectPoints c draw source (c.maskOf [.EVERY_SECOND, .EVERY_THIRD]) =
        [0, 6, 12, 18, 24, 30, 36, 42, 48, 54, 60, 66, 72, 78, 84, 90, 96]) ∧
    (∀ mask i : Nat,
      (i ∈ selectPoints c draw source mask ↔
        i < source.getAmountOfVertices ∧
        (Bitmask.isSet mask (c.flagValue .EVERY_SECOND) = true → 2 ∣ i) ∧
        (Bitmask.isSet mask (c.flagValue .EVERY_THIRD) = true → 3 ∣ i) ∧
        (Bitmask.isSet mask (c.flagValue .EVERY_FOURTH) = true → 4 ∣ i) ∧
        (Bitmask.isSet mask (c.flagValue .EVERY_FIFTH) = true → 5 ∣ i) ∧
        (Bitmask.isSet mask (c.flagValue .NO_EDGES) = true →
          ∀ v : Vertex c.Vec, source.getVertex i = some v → v.isEdge = false) ∧
        (Bitmask.isSet mask (c.flagValue .RANDOM) = true → draw i = true))) ∧
    (∀ mask i : Nat,
      i ∈ selectPoints c draw source mask →
        i < source.getAmountOfVertices ∧
        (Bitmask.isSet mask (c.flagValue .EVERY_SECOND) = true → 2 ∣ i) ∧
        (Bitmask.isSet mask (c.flagValue .EVERY_THIRD) = true → 3 ∣ i) ∧
        (Bitmask.isSet mask (c.flagValue .EVERY_FOURTH) = true → 4 ∣ i) ∧
        (Bitmask.isSet mask (c.flagValue .EVERY_FIFTH) = true → 5 ∣ i)) ∧
    (∀ mask i : Nat,
      Bitmask.isSet mask (c.flagValue .NO_EDGES) = false →
      Bitmask.isSet mask (c.flagValue .RANDOM) = false →
      (i ∈ selectPoints c draw source mask ↔
        i < source.getAmountOfVertices ∧
        (Bitmask.isSet mask (c.flagValue .EVERY_SECOND) = true → 2 ∣ i) ∧
        (Bitmask.isSet mask (c.flagValue .EVERY_THIRD) = true → 3 ∣ i) ∧
        (Bitmask.isSet mask (c.flagValue .EVERY_FOURTH) = true → 4 ∣ i) ∧
        (Bitmask.isSet mask (c.flagValue .EVERY_FIFTH) = true → 5 ∣ i))) := by
  refine ⟨?_, ?_, ?_, ?_, ?_⟩
  · intro hn
    have hp : passesFilters c draw source (c.maskOf [.EVERY_SECOND]) = fun i => i % 2 == 0 := by
      funext i
      simp [passesFilters, isSet_maskOf c hinj]
    have hl : selectPoints c draw source (c.maskOf [.EVERY_SECOND]) =
        (List.range 100).filter (fun i => i % 2 == 0) := by
      rw [selectPoints, hn, hp]
    rw [hl]
    exact ⟨by decide, by decide⟩
  · intro hn
    have hp : passesFilters c draw source (c.maskOf [.EVERY_SECOND, .EVERY_THIRD]) =
        fun i => i % 2 == 0 && i % 3 == 0 := by
      funext i
      simp [passesFilters, isSet_maskOf c hinj]
    rw [selectPoints, hn, hp]
    decide
  · intro mask i
    exact mem_selectPoints c draw source mask i
  · intro mask i hi
    have h := (mem_selectPoints c draw source mask i).1 hi
    exact ⟨h.1, h.2.1, h.2.2.1, h.2.2.2.1, h.2.2.2.2.1⟩
  · intro mask i he hr
    rw [mem_selectPoints c draw source mask i]
    constructor
    · intro h
      exact ⟨h.1, h.2.1, h.2.2.1, h.2.2.2.1, h.2.2.2.2.1⟩
    · intro h
      refine ⟨h.1, h.2.1, h.2.2.1, h.2.2.2.1, h.2.2.2.2, ?_, ?_⟩
      · intro hs
        rw [he] at hs
        exact absurd hs (by decide)
      · intro hs
        rw [hr] at hs
        exact absurd hs (by decide)

/-- Witness of C6: the demo flags and the demo source of 100 points, whose
point 1 is an edge point. -/
theorem modulus_filters_intersect_witness :
    Function.Injective demo.flagBit ∧
    demoSource.getAmountOfVertices = 100 ∧
    selectPoints demo (fun _ => true) demoSource (demo.maskOf [.EVERY_SECOND]) =
      [0, 2, 4, 6, 8, 10, 12, 14, 16, 18, 20, 22, 24, 26, 28, 30, 32, 34, 36, 38, 40, 42, 44,
        46, 48, 50, 52, 54, 56, 58, 60, 62, 64, 66, 68, 70, 72, 74, 76, 78, 80, 82, 84, 86, 88,
        90, 92, 94, 96, 98] ∧
    selectPoints demo (fun _ => true) demoSource (demo.maskOf [.EVERY_SECOND, .EVERY_THIRD]) =
      [0, 6, 12, 18, 24, 30, 36, 42, 48, 54, 60, 66, 72, 78, 84, 90, 96] ∧
    60 ∈ selectPoints demo (fun _ => true) demoSource
      (demo.maskOf [.EVERY_FOURTH, .EVERY_FIFTH]) ∧
    1 ∉ selectPoints demo (fun _ => true) demoSource (demo.maskOf [.NO_EDGES]) :=
  have hlen : demoSource.getAmountOfVertices = 100 := by
    unfold demoSource Model.getAmountOfVertices
    rw [List.length_map, List.length_range]
  have h := modulus_filters_intersect demo demo_flagBit_injective (fun _ => true) demoSource
  ⟨demo_flagBit_injective, hlen, (h.1 hlen).1, h.2.1 hlen,
    (h.2.2.2.2 (demo.maskOf [.EVERY_FOURTH, .EVERY_FIFTH]) 60
      (by rw [isSet_maskOf demo demo_flagBit_injective]; decide)
      (by rw [isSet_maskOf demo demo_flagBit_injective]; decide)).2
      ⟨by rw [hlen]; decide, fun _ => by decide, fun _ => by decide, fun _ => by decide,
        fun _ => by decide⟩,
    fun hsel => absurd
      (((h.2.2.1 (demo.maskOf [.NO_EDGES]) 1).1 hsel).2.2.2.2.2.1
        (by rw [isSet_maskOf demo demo_flagBit_injective]; decide) _ demoSource_getVertex_one)
      (by decide)⟩

/-! ## What `keyCallback` does, key by key -/

/-- The calls made since a state, once the record is known to extend it. -/
theorem callsSince_of_calls_eq {c : Collab} (s t : State c) (added : List (Call c.Err))
    (h : t.calls = s.calls ++ added) : callsSince s t = added := by
  unfold callsSince
  rw [h, List.drop_left]

/-- An event that is not a press changes nothing but the call record: the
selection mask is read and written back. -/
theorem keyCallback_of_not_press (c : Collab) (s : State c) (args : KeyEventArgs)
    (h : args.action ≠ GLFW_PRESS) :
    keyCallback c s args =
      { s with calls := s.calls ++ [.setSelectionMethod s.icp.selectionMethod] } := by
  simp only [GLFW_PRESS] at h
  simp [keyCallback, keyAction, keySelection, keyDebug, ICP.setSelectionMethod, h]

/-- The state after a press of U. -/
theorem keyCallback_U (c : Collab) (s : State c) (mods : Int) :
    keyCallback c s ⟨GLFW_KEY_U, GLFW_PRESS, mods⟩ =
      { s with
        pSourceModel := (c.pcaCalcNextStep s.pca_icp s.pSourceModel s.pDestModel).2
        pca_icp := (c.pcaCalcNextStep s.pca_icp s.pSourceModel s.pDestModel).1
        nn := s.nn.clearCache
        calls := s.calls ++ [.logInfo "Calculating PCA matching!", .pcaCalcNextStep,
          .updateBuffers .source, .clearCache, .logInfo "Done!",
          .setSelectionMethod s.icp.selectionMethod] } := by
  simp [keyCallback, keyAction, keySelection, keyDebug, ICP.setSelectionMethod]

/-- The state after a press of R with exactly the control modifier. -/
theorem keyCallback_R_control (c : Collab) (s : State c) :
    keyCallback c s ⟨GLFW_KEY_R, GLFW_PRESS, GLFW_MOD_CONTROL⟩ =
      { s with
        pSourceModel := (c.rotateRandom (c.getFloatValue s.properties "maxRandomRotation")
          s.rng s.pSourceModel).2
        rng := (c.rotateRandom (c.getFloatValue s.properties "maxRandomRotation")
          s.rng s.pSourceModel).1
        calls := s.calls ++ [.logInfo "Applying random rotation to source mesh.",
          .rotateRandom, .setSelectionMethod s.icp.selectionMethod] } := by
  simp [keyCallback, keyAction, keySelection, keyDebug, ICP.setSelectionMethod]

/-- The state after a press of R with any other modifier field. -/
theorem keyCallback_R_reload (c : Collab) (s : State c) (mods : Int)
    (h : mods ≠ GLFW_MOD_CONTROL) :
    keyCallback c s ⟨GLFW_KEY_R, GLFW_PRESS, mods⟩ =
      { s with
        pSourceModel := c.newModel (c.getStringValue s.properties "src")
        pDestModel := c.newModel (c.getStringValue s.properties "dest")
        pca_icp := c.pcaReset s.pca_icp
        calls := s.calls ++ [.logInfo "Reloading meshes...", .deleteModel .source,
          .deleteModel .dest, .newModel .source (c.getStringValue s.properties "src"),
          .newModel .dest (c.getStringValue s.properties "dest"), .updateBuffers .source,
          .updateBuffers .dest, .pcaReset, .setSelectionMethod s.icp.selectionMethod] } := by
  simp only [GLFW_MOD_CONTROL] at h
  simp [keyCallback, keyAction, keySelection, keyDebug, ICP.setSelectionMethod, h]

/-- The state after a press of H. -/
theorem keyCallback_H (c : Collab) (s : State c) (mods : Int) :
    keyCallback c s ⟨GLFW_KEY_H, GLFW_PRESS, mods⟩ =
      { s with
        pDestModel := moveEdgeVertices c s.pDestModel
        calls := s.calls ++ [.setSelectionMethod s.icp.selectionMethod, .logInfo "DEBUG!",
          .updateBuffers .dest] } := by
  simp [keyCallback, keyAction, keySelection, keyDebug, ICP.setSelectionMethod]

/-! ## The loop of the debug key -/

/-- The vertices after the loop of the debug key has run from index `i`,
when the fuel covers the indices left: those before `i` are untouched, those
from `i` on are moved if they are edge vertices. -/
theorem getElem?_moveEdgeVerticesFrom (c : Collab) :
    ∀ (fuel i : Nat) (m : Model c.Vec), m.length ≤ i + fuel → ∀ j : Nat,
      (moveEdgeVerticesFrom c fuel i m)[j]? =
        if i ≤ j then (m[j]?).map (moveVertex c) else m[j]? := by
  intro fuel
  induction fuel with
  | zero =>
    intro i m hlen j
    simp only [moveEdgeVerticesFrom]
    split_ifs with hij
    · rw [List.getElem?_eq_none (by omega)]
      rfl
    · rfl
  | succ fuel ih =>
    intro i m hlen j
    simp only [moveEdgeVerticesFrom, Model.getAmountOfVertices, Model.getVertex]
    by_cases hi : i < m.length
    · rw [if_pos hi, List.getElem?_eq_getElem hi]
      simp only
      by_cases he : (m[i]).isEdge = true
      · rw [if_pos he, ih (i + 1) _ (by simp [Model.setVertex]; omega) j]
        simp only [Model.setVertex, List.getElem?_modify]
        by_cases h1 : i + 1 ≤ j
        · have hne : i ≠ j := by omega
          have hle : i ≤ j := by omega
          simp [h1, hne, hle]
        · rw [if_neg h1]
          by_cases h2 : i = j
          · subst h2
            simp [List.getElem?_eq_getElem hi, moveVertex, he]
          · have hlt : ¬ i ≤ j := by omega
            simp [h2, hlt]
      · rw [if_neg he, ih (i + 1) m (by omega) j]
        by_cases h1 : i + 1 ≤ j
        · have hle : i ≤ j := by omega
          simp [h1, hle]
        · rw [if_neg h1]
          by_cases h2 : i = j
          · subst h2
            simp [List.getElem?_eq_getElem hi, moveVertex, he]
          · have hlt : ¬ i ≤ j := by omega
            simp [hlt]
    · rw [if_neg hi]
      split_ifs with hij
      · rw [List.getElem?_eq_none (by omega)]
        rfl
      · rfl

/-- The loop of the debug key terminates within the fuel it is given and
moves every edge vertex of the model by half its normal, leaving the other
vertices and the vertex count as they are. -/
theorem moveEdgeVertices_eq_map (c : Collab) (m : Model c.Vec) :
    moveEdgeVertices c m = m.map (moveVertex c) := by
  apply List.ext_getElem?
  intro j
  rw [moveEdgeVertices, getElem?_moveEdgeVerticesFrom c _ 0 m
    (by simp [Model.getAmountOfVertices]) j, List.getElem?_map]
  simp

/-! ## Presses, releases and repeats -/

/-- C8: a key event whose action is not a press (a release or a repeat),
whatever its key and modifiers, leaves the source model, the destination
model, the selection mask, both visibility flags, the PCA state and the
nearest-neighbour instance with its cache as they were; the one call made is
the write-back of the selection mask with the value read. -/
theorem only_presses_act (c : Collab) (s : State c) (args : KeyEventArgs)
    (h : args.action ≠ GLFW_PRESS) :
    (keyCallback c s args).pSourceModel = s.pSourceModel ∧
    (keyCallback c s args).pDestModel = s.pDestModel ∧
    (keyCallback c s args).icp.selectionMethod = s.icp.selectionMethod ∧
    (keyCallback c s args).showSource = s.showSource ∧
    (keyCallback c s args).showDest = s.showDest ∧
    (keyCallback c s args).pca_icp = s.pca_icp ∧
    (keyCallback c s args).nn = s.nn ∧
    (keyCallback c s args).nn.cache = s.nn.cache ∧
    callsSince s (keyCallback c s args) = [.setSelectionMethod s.icp.selectionMethod] := by
  have hc := callsSince_of_calls_eq s (keyCallback c s args)
    [.setSelectionMethod s.icp.selectionMethod]
  rw [keyCallback_of_not_press c s args h] at hc ⊢
  exact ⟨rfl, rfl, rfl, rfl, rfl, rfl, rfl, rfl, hc rfl⟩

/-- Witness of C8: U held down until it repeats, in the demo state. -/
theorem only_presses_act_witness :
    GLFW_REPEAT ≠ GLFW_PRESS ∧
    (keyCallback demo demoState ⟨GLFW_KEY_U, GLFW_REPEAT, 0⟩).pSourceModel =
      demoState.pSourceModel ∧
    (keyCallback demo demoState ⟨GLFW_KEY_U, GLFW_REPEAT, 0⟩).pDestModel =
      demoState.pDestModel ∧
    (keyCallback demo demoState ⟨GLFW_KEY_U, GLFW_REPEAT, 0⟩).icp.selectionMethod =
      demoState.icp.selectionMethod ∧
    (keyCallback demo demoState ⟨GLFW_KEY_U, GLFW_REPEAT, 0⟩).showSource =
      demoState.showSource ∧
    (keyCallback demo demoState ⟨GLFW_KEY_U, GLFW_REPEAT, 0⟩).showDest = demoState.showDest ∧
    (keyCallback demo demoState ⟨GLFW_KEY_U, GLFW_REPEAT, 0⟩).pca_icp = demoState.pca_icp ∧
    (keyCallback demo demoState ⟨GLFW_KEY_U, GLFW_REPEAT, 0⟩).nn = demoState.nn ∧
    (keyCallback demo demoState ⟨GLFW_KEY_U, GLFW_REPEAT, 0⟩).nn.cache = demoState.nn.cache ∧
    callsSince demoState (keyCallback demo demoState ⟨GLFW_KEY_U, GLFW_REPEAT, 0⟩) =
      [.setSelectionMethod demoState.icp.selectionMethod] :=
  ⟨by decide, only_presses_act demo demoState ⟨GLFW_KEY_U, GLFW_REPEAT, 0⟩ (by decide)⟩

/-! ## The R key -/

/-- C9: a press of R with the modifier field equal to the control modifier
rotates the source at random and neither reloads a model nor resets the PCA
pre-alignment; a press of R with any other modifier field (none, or control
together with another modifier) reloads both models and resets the PCA
pre-alignment and applies no random rotation. -/
theorem r_key_dispatch (c : Collab) (s : State c) (mods : Int) :
    (mods = GLFW_MOD_CONTROL →
      (keyCallback c s ⟨GLFW_KEY_R, GLFW_PRESS, mods⟩).pSourceModel =
        (c.rotateRandom (c.getFloatValue s.properties "maxRandomRotation") s.rng
          s.pSourceModel).2 ∧
      (keyCallback c s ⟨GLFW_KEY_R, GLFW_PRESS, mods⟩).rng =
        (c.rotateRandom (c.getFloatValue s.properties "maxRandomRotation") s.rng
          s.pSourceModel).1 ∧
      (keyCallback c s ⟨GLFW_KEY_R, GLFW_PRESS, mods⟩).pDestModel = s.pDestModel ∧
      (keyCallback c s ⟨GLFW_KEY_R, GLFW_PRESS, mods⟩).pca_icp = s.pca_icp ∧
      callsSince s (keyCallback c s ⟨GLFW_KEY_R, GLFW_PRESS, mods⟩) =
        [.logInfo "Applying random rotation to source mesh.", .rotateRandom,
          .setSelectionMethod s.icp.selectionMethod]) ∧
    (mods ≠ GLFW_MOD_CONTROL →
      (keyCallback c s ⟨GLFW_KEY_R, GLFW_PRESS, mods⟩).pSourceModel =
        c.newModel (c.getStringValue s.properties "src") ∧
      (keyCallback c s ⟨GLFW_KEY_R, GLFW_PRESS, mods⟩).rng = s.rng ∧
      (keyCallback c s ⟨GLFW_KEY_R, GLFW_PRESS, mods⟩).pDestModel =
        c.newModel (c.getStringValue s.properties "dest") ∧
      (keyCallback c s ⟨GLFW_KEY_R, GLFW_PRESS, mods⟩).pca_icp = c.pcaReset s.pca_icp ∧
      callsSince s (keyCallback c s ⟨GLFW_KEY_R, GLFW_PRESS, mods⟩) =
        [.logInfo "Reloading meshes...", .deleteModel .source, .deleteModel .dest,
          .newModel .source (c.getStringValue s.properties "src"),
          .newModel .dest (c.getStringValue s.properties "dest"), .updateBuffers .source,
          .updateBuffers .dest, .pcaReset, .setSelectionMethod s.icp.selectionMethod]) := by
  constructor
  · intro h
    subst h
    have hc := callsSince_of_calls_eq s (keyCallback c s ⟨GLFW_KEY_R, GLFW_PRESS, GLFW_MOD_CONTROL⟩)
    rw [keyCallback_R_control] at hc ⊢
    exact ⟨rfl, rfl, rfl, rfl, hc _ rfl⟩
  · intro h
    have hc := callsSince_of_calls_eq s (keyCallback c s ⟨GLFW_KEY_R, GLFW_PRESS, mods⟩)
    rw [keyCallback_R_reload c s mods h] at hc ⊢
    exact ⟨rfl, rfl, rfl, rfl, hc _ rfl⟩

/-- Witness of C9: R with control, and R with control and shift (modifier
field 3), in the demo state. -/
theorem r_key_dispatch_witness :
    callsSince demoState (keyCallback demo demoState ⟨GLFW_KEY_R, GLFW_PRESS, 2⟩) =
      [.logInfo "Applying random rotation to source mesh.", .rotateRandom,
        .setSelectionMethod 5] ∧
    (3 : Int) ≠ GLFW_MOD_CONTROL ∧
    callsSince demoState (keyCallback demo demoState ⟨GLFW_KEY_R, GLFW_PRESS, 3⟩) =
      [.logInfo "Reloading meshes...", .deleteModel .source, .deleteModel .dest,
        .newModel .source "a.obj", .newModel .dest "bb.obj", .updateBuffers .source,
        .updateBuffers .dest, .pcaReset, .setSelectionMethod 5] :=
  ⟨((r_key_dispatch demo demoState 2).1 rfl).2.2.2.2, by decide,
    ((r_key_dispatch demo demoState 3).2 (by decide)).2.2.2.2⟩

/-! ## Reload and PCA pre-alignment -/

/-- C4: after a press of R whose modifier field is not exactly the control
modifier, the source and the destination are the models freshly loaded from
the files named by the properties "src" and "dest", `pca_icp.reset()` has
been called, the retained PCA state is the initial one, and the next PCA step
(a press of U) starts from that initial state and the reloaded models. -/
theorem reload_resets_pca (c : Collab) (s : State c) (mods : Int)
    (h : mods ≠ GLFW_MOD_CONTROL) :
    (keyCallback c s ⟨GLFW_KEY_R, GLFW_PRESS, mods⟩).pSourceModel =
      c.newModel (c.getStringValue s.properties "src") ∧
    (keyCallback c s ⟨GLFW_KEY_R, GLFW_PRESS, mods⟩).pDestModel =
      c.newModel (c.getStringValue s.properties "dest") ∧
    Call.pcaReset ∈ callsSince s (keyCallback c s ⟨GLFW_KEY_R, GLFW_PRESS, mods⟩) ∧
    (keyCallback c s ⟨GLFW_KEY_R, GLFW_PRESS, mods⟩).pca_icp = c.pcaInit ∧
    (∀ mods2 : Int,
      (keyCallback c (keyCallback c s ⟨GLFW_KEY_R, GLFW_PRESS, mods⟩)
        ⟨GLFW_KEY_U, GLFW_PRESS, mods2⟩).pca_icp =
        (c.pcaCalcNextStep c.pcaInit (c.newModel (c.getStringValue s.properties "src"))
          (c.newModel (c.getStringValue s.properties "dest"))).1 ∧
      (keyCallback c (keyCallback c s ⟨GLFW_KEY_R, GLFW_PRESS, mods⟩)
        ⟨GLFW_KEY_U, GLFW_PRESS, mods2⟩).pSourceModel =
        (c.pcaCalcNextStep c.pcaInit (c.newModel (c.getStringValue s.properties "src"))
          (c.newModel (c.getStringValue s.properties "dest"))).2) := by
  have hc := callsSince_of_calls_eq s (keyCallback c s ⟨GLFW_KEY_R, GLFW_PRESS, mods⟩)
  simp only [keyCallback_U]
  rw [keyCallback_R_reload c s mods h] at hc ⊢
  refine ⟨rfl, rfl, ?_, rfl, fun _ => ⟨rfl, rfl⟩⟩
  rw [hc _ rfl]
  simp

/-- Witness of C4: a plain press of R in the demo state. -/
theorem reload_resets_pca_witness :
    (0 : Int) ≠ GLFW_MOD_CONTROL ∧
    (keyCallback demo demoState ⟨GLFW_KEY_R, GLFW_PRESS, 0⟩).pSourceModel =
      demo.newModel "a.obj" ∧
    (keyCallback demo demoState ⟨GLFW_KEY_R, GLFW_PRESS, 0⟩).pDestModel =
      demo.newModel "bb.obj" ∧
    Call.pcaReset ∈ callsSince demoState (keyCallback demo demoState ⟨GLFW_KEY_R, GLFW_PRESS, 0⟩) ∧
    (keyCallback demo demoState ⟨GLFW_KEY_R, GLFW_PRESS, 0⟩).pca_icp = 0 :=
  have h := reload_resets_pca demo demoState 0 (by decide)
  ⟨by decide, h.1, h.2.1, h.2.2.1, h.2.2.2.1⟩

/-- C5: after a press of U the PCA step has been applied once to the source
and the destination the press found (the source and the retained PCA state
are its results, the destination is untouched), the cache of the
nearest-neighbour instance is empty, and the calls made are, in this order,
the PCA step, the buffer update, `nn.clearCache()` and the write-back of the
selection mask: nothing runs between the clearing and the return that could
fill the cache again. -/
theorem pca_step_clears_cache (c : Collab) (s : State c) (mods : Int) :
    (keyCallback c s ⟨GLFW_KEY_U, GLFW_PRESS, mods⟩).pSourceModel =
      (c.pcaCalcNextStep s.pca_icp s.pSourceModel s.pDestModel).2 ∧
    (keyCallback c s ⟨GLFW_KEY_U, GLFW_PRESS, mods⟩).pca_icp =
      (c.pcaCalcNextStep s.pca_icp s.pSourceModel s.pDestModel).1 ∧
    (keyCallback c s ⟨GLFW_KEY_U, GLFW_PRESS, mods⟩).pDestModel = s.pDestModel ∧
    (keyCallback c s ⟨GLFW_KEY_U, GLFW_PRESS, mods⟩).nn.cache = [] ∧
    callsSince s (keyCallback c s ⟨GLFW_KEY_U, GLFW_PRESS, mods⟩) =
      [.logInfo "Calculating PCA matching!", .pcaCalcNextStep, .updateBuffers .source,
        .clearCache, .logInfo "Done!", .setSelectionMethod s.icp.selectionMethod] := by
  have hc := callsSince_of_calls_eq s (keyCallback c s ⟨GLFW_KEY_U, GLFW_PRESS, mods⟩)
  rw [keyCallback_U] at hc ⊢
  exact ⟨rfl, rfl, rfl, rfl, hc _ rfl⟩

/-! ## The cache when the destination changes -/

/-- The debug key, in every state: the nearest-neighbour instance and its
cache are left as they are and `nn.clearCache()` is not called. -/
theorem keyCallback_H_nn (c : Collab) (s : State c) (mods : Int) :
    (keyCallback c s ⟨GLFW_KEY_H, GLFW_PRESS, mods⟩).nn = s.nn ∧
    Call.clearCache ∉ callsSince s (keyCallback c s ⟨GLFW_KEY_H, GLFW_PRESS, mods⟩) := by
  have hc := callsSince_of_calls_eq s (keyCallback c s ⟨GLFW_KEY_H, GLFW_PRESS, mods⟩)
  rw [keyCallback_H] at hc ⊢
  rw [hc _ rfl]
  exact ⟨rfl, by simp⟩

/-- The reload, in every state: the nearest-neighbour instance and its cache
are left as they are and `nn.clearCache()` is not called. -/
theorem keyCallback_R_reload_nn (c : Collab) (s : State c) (mods : Int)
    (h : mods ≠ GLFW_MOD_CONTROL) :
    (keyCallback c s ⟨GLFW_KEY_R, GLFW_PRESS, mods⟩).nn = s.nn ∧
    Call.clearCache ∉ callsSince s (keyCallback c s ⟨GLFW_KEY_R, GLFW_PRESS, mods⟩) := by
  have hc := callsSince_of_calls_eq s (keyCallback c s ⟨GLFW_KEY_R, GLFW_PRESS, mods⟩)
  rw [keyCallback_R_reload c s mods h] at hc ⊢
  rw [hc _ rfl]
  exact ⟨rfl, by simp⟩

/-- C1: the correspondence cache is not cleared when the destination
changes. The debug key (H) moves the edge vertex of the destination of the
demo state, and a plain press of R replaces the moved destination by the one
on file; in both cases the destination differs from the one before the key,
the cache of the nearest-neighbour instance still holds the entry it held
before, and `nn.clearCache()` is not among the calls made. -/
theorem destination_change_leaves_cache :
    (keyCallback demo demoState ⟨GLFW_KEY_H, GLFW_PRESS, 0⟩).pDestModel =
      demoMoved.pDestModel ∧
    demoMoved.pDestModel ≠ demoState.pDestModel ∧
    (keyCallback demo demoState ⟨GLFW_KEY_H, GLFW_PRESS, 0⟩).nn.cache = [0] ∧
    Call.clearCache ∉ callsSince demoState
      (keyCallback demo demoState ⟨GLFW_KEY_H, GLFW_PRESS, 0⟩) ∧
    (keyCallback demo demoMoved ⟨GLFW_KEY_R, GLFW_PRESS, 0⟩).pDestModel =
      demoState.pDestModel ∧
    (keyCallback demo demoMoved ⟨GLFW_KEY_R, GLFW_PRESS, 0⟩).nn.cache = [0] ∧
    Call.clearCache ∉ callsSince demoMoved
      (keyCallback demo demoMoved ⟨GLFW_KEY_R, GLFW_PRESS, 0⟩) := by
  have hH := callsSince_of_calls_eq demoState
    (keyCallback demo demoState ⟨GLFW_KEY_H, GLFW_PRESS, 0⟩)
  have hR := callsSince_of_calls_eq demoMoved
    (keyCallback demo demoMoved ⟨GLFW_KEY_R, GLFW_PRESS, 0⟩)
  rw [keyCallback_H] at hH ⊢
  rw [keyCallback_R_reload demo demoMoved 0 (by decide)] at hR ⊢
  rw [hH _ rfl, hR _ rfl, moveEdgeVertices_eq_map]
  have hlen : "bb.obj".length = 6 := by decide
  refine ⟨?_, ?_, rfl, by simp, rfl, rfl, by simp⟩
  · simp [demoState, demoMoved, moveVertex, hlen]
    norm_num
  · simp [demoState, demoMoved, hlen]
    norm_num

/-! ## Start-up -/

/-- The action chain only appends to the call record. -/
theorem keyAction_calls (c : Collab) (s : State c) (args : KeyEventArgs) :
    s.calls <+: (keyAction c s args).calls := by
  unfold keyAction
  split_ifs <;> simp

/-- The selection chain only appends to the call record. -/
theorem keySelection_calls (c : Collab) (s : State c) (args : KeyEventArgs) (m : Nat) :
    s.calls <+: (keySelection c s args m).1.calls := by
  unfold keySelection
  split_ifs <;> simp [State.did]

/-- The debug key only appends to the call record. -/
theorem keyDebug_calls (c : Collab) (s : State c) (args : KeyEventArgs) :
    s.calls <+: (keyDebug c s args).calls := by
  unfold keyDebug
  split_ifs <;> simp

/-- One run of `keyCallback` only appends to the call record. -/
theorem keyCallback_calls (c : Collab) (s : State c) (args : KeyEventArgs) :
    s.calls <+: (keyCallback c s args).calls := by
  unfold keyCallback
  refine List.IsPrefix.trans ?_ (keyDebug_calls c _ args)
  refine List.IsPrefix.trans (keyAction_calls c s args) ?_
  refine List.IsPrefix.trans
    (keySelection_calls c (keyAction c s args) args (keyAction c s args).icp.selectionMethod) ?_
  exact List.prefix_append _ _

/-- A whole session of key events only appends to the call record. -/
theorem foldl_keyCallback_calls (c : Collab) (keys : List KeyEventArgs) :
    ∀ s : State c, s.calls <+: (keys.foldl (keyCallback c) s).calls := by
  induction keys with
  | nil => intro s; exact List.prefix_refl _
  | cons k ks ih =>
    intro s
    exact List.IsPrefix.trans (keyCallback_calls c s k) (ih (keyCallback c s k))

/-- Loading the models at start-up only appends to the call record. -/
theorem startState_calls (c : Collab) (properties : c.Props) (calls : List (Call c.Err)) :
    calls <+: (startState c properties calls).calls := by
  unfold startState
  split_ifs <;> simp [List.append_assoc]

/-- C10: `checkProperties` returns true if and only if the string properties
"src" and "dest" are both non-empty. When it returns false on the properties
loaded and interpreted by `main`, `main` returns -1 having only set up the
log, loaded and interpreted the properties and logged the usage: no window
is created and no model loaded. When it returns true, `main` goes on to
create the window and, the session over, returns 0. -/
theorem startup_validation (c : Collab) (properties0 : c.Props) (argv : List String)
    (keys : List KeyEventArgs) :
    (∀ properties : c.Props,
      checkProperties c properties = true ↔
        c.getStringValue properties "src" ≠ "" ∧ c.getStringValue properties "dest" ≠ "") ∧
    (checkProperties c (c.interpret (c.load properties0 "Properties.txt") argv.tail) = false →
      main c properties0 argv keys =
        (-1, [.setLogLevel, .logInfo "Starting...", .propertiesLoad "Properties.txt",
          .propertiesInterpret, .logInfo "Usage: -src Path/To/Source/Mesh",
          .logInfo "       -dest Path/To/Destination/Mesh"])) ∧
    (checkProperties c (c.interpret (c.load properties0 "Properties.txt") argv.tail) = true →
      (main c properties0 argv keys).1 = 0 ∧
      [.setLogLevel, .logInfo "Starting...", .propertiesLoad "Properties.txt",
        .propertiesInterpret, .createWindow] <+: (main c properties0 argv keys).2) := by
  refine ⟨?_, ?_, ?_⟩
  · intro properties
    simp [checkProperties]
  · intro h
    simp [main, h]
  · intro h
    simp only [main, h, Bool.not_true, Bool.false_eq_true, if_false]
    refine ⟨trivial, ?_⟩
    refine List.IsPrefix.trans ?_ (List.prefix_append _ _)
    refine List.IsPrefix.trans ?_ (foldl_keyCallback_calls c keys _)
    refine List.IsPrefix.trans ?_ (List.prefix_append _ _)
    refine List.IsPrefix.trans ?_ (startState_calls c _ _)
    exact ⟨[.windowInit, .newCamera], by simp⟩

/-- Witness of C10: the demo viewer started without arguments, and started
with both mesh paths and closed after one press of U. -/
theorem startup_validation_witness :
    checkProperties demo (demo.interpret (demo.load [] "Properties.txt")
      (["sfa"] : List String).tail) = false ∧
    main demo [] ["sfa"] [] =
      (-1, [.setLogLevel, .logInfo "Starting...", .propertiesLoad "Properties.txt",
        .propertiesInterpret, .logInfo "Usage: -src Path/To/Source/Mesh",
        .logInfo "       -dest Path/To/Destination/Mesh"]) ∧
    checkProperties demo (demo.interpret (demo.load [] "Properties.txt")
      (["sfa", "-src", "a.obj", "-dest", "bb.obj"] : List String).tail) = true ∧
    (main demo [] ["sfa", "-src", "a.obj", "-dest", "bb.obj"]
      [⟨GLFW_KEY_U, GLFW_PRESS, 0⟩]).1 = 0 :=
  ⟨by decide,
    (startup_validation demo [] ["sfa"] []).2.1 (by decide),
    by decide,
    ((startup_validation demo [] ["sfa", "-src", "a.obj", "-dest", "bb.obj"]
      [⟨GLFW_KEY_U, GLFW_PRESS, 0⟩]).2.2 (by decide)).1⟩

end SFA
